import Mathlib

/-!
Shallow embedding of src/main.rs of the aranet-egui repository.

Modelling conventions:
- Rust f32/f64 values are modelled as rationals (ℚ); the claims under
  consideration are structural (which points are plotted, which fields are
  read), not about rounding of floating point.
- u32/u64 values are modelled as ℕ; no arithmetic is performed on them in
  the source, so wraparound never arises.
- Panicking (unwrap on a failed value) is modelled by the PanicOr type.
- The egui Ui is modelled by the identifier it contributes to the plot link
  group and by the list of widgets the frame emits.
- Closures passed to plot_generic that differ only in captured string
  constants are represented by those constants together with a marker for
  their shared code shape.
-/

namespace Aranet

/-- The colors from egui used in src/main.rs (only named constants appear). -/
inductive Color32 where
  | green
  | blue
  | white
  | cyan
  | yellow
  | black
deriving DecidableEq, Repr

/-- egui Vec2b: a pair of booleans, x and y component. -/
structure Vec2b where
  x : Bool
  y : Bool
deriving DecidableEq, Repr

/-- The Record struct of src/main.rs lines 267-274: one timestamped sensor
reading with six fields. -/
structure Record where
  timestamp_nanos : ℕ
  celsius : ℚ
  pressure : ℚ
  co2_level : ℕ
  humidity : ℕ
  battery : ℕ
deriving DecidableEq, Repr

/-- Record::timestamp_millis (src/main.rs lines 277-279):
timestamp_nanos as f64 / 1_000_000.0, with the f64 division modelled as
exact division in ℚ. -/
def Record.timestamp_millis (r : Record) : ℚ :=
  (r.timestamp_nanos : ℚ) / 1000000

/-- A value stored in one column of a sonnerie row, tagged with its stored
type; get_checked succeeds only at the matching type. -/
inductive FieldValue where
  | f32val (q : ℚ)
  | u32val (n : ℕ)
deriving DecidableEq, Repr

/-- A sonnerie::Record: a timestamp plus a list of typed column values. -/
structure SonRecord where
  timestamp_nanos : ℕ
  fields : List FieldValue
deriving DecidableEq, Repr

/-- sonnerie get_checked at type f32: the column must exist and hold an f32. -/
def SonRecord.get_checked_f32 (v : SonRecord) (i : ℕ) : Option ℚ :=
  match v.fields.get? i with
  | some (.f32val q) => some q
  | _ => none

/-- sonnerie get_checked at type u32: the column must exist and hold a u32. -/
def SonRecord.get_checked_u32 (v : SonRecord) (i : ℕ) : Option ℕ :=
  match v.fields.get? i with
  | some (.u32val n) => some n
  | _ => none

/-- Outcome of running code that may panic (Rust unwrap on a failed value). -/
inductive PanicOr (α : Type) where
  | panicked
  | value (a : α)
deriving DecidableEq, Repr

/-- std io::Error, modelled by its message. -/
structure IOError where
  msg : String
deriving DecidableEq, Repr

/-- impl TryFrom of sonnerie::Record for Record (src/main.rs lines 282-295):
the body is Ok(Record { .. }) whose field initialisers unwrap
get_checked at positions 0..4; a failed get_checked panics, and the only
non-panicking exit is Ok. -/
def Record.tryFrom (v : SonRecord) : PanicOr (Except IOError Record) :=
  match v.get_checked_f32 0, v.get_checked_f32 1, v.get_checked_u32 2,
      v.get_checked_u32 3, v.get_checked_u32 4 with
  | some c, some p, some co2, some h, some b =>
      .value (.ok ⟨v.timestamp_nanos, c, p, co2, h, b⟩)
  | _, _, _, _, _ => .panicked

/-- A sonnerie DatabaseReader once opened: maps a key to its rows
(db.get in the source reads one key). -/
structure Database where
  get : String → List SonRecord

/-- The external world refresh interacts with: opening the database at a
path either yields a reader or an io error. -/
structure Env where
  openDb : String → Except IOError Database

/-- The constants of src/main.rs lines 9-12. -/
def PLOT_WIDTH : ℚ := 450

def PLOT_HEIGHT : ℚ := 120

def PLOT_LINK_AXIS_NAME : String := "linked"

def PLOT_SPACE : ℚ := 8

/-- The fixed path passed to DatabaseReader::new in refresh. -/
def measurementsPath : String := "../aranet2sonnerie/measurements.son"

/-- The application state (src/main.rs lines 39-42). -/
structure LinkedAxesDemo where
  records : List Record
deriving DecidableEq, Repr

/-- Default::default() for LinkedAxesDemo: an empty record list. -/
def LinkedAxesDemo.default : LinkedAxesDemo := ⟨[]⟩

/-- The collect of io::Result in refresh line 49-52: convert each row in
order, stopping at the first panic or Err. -/
def collectRecords : List SonRecord → PanicOr (Except IOError (List Record))
  | [] => .value (.ok [])
  | v :: rest =>
    match Record.tryFrom v with
    | .panicked => .panicked
    | .value (.error e) => .value (.error e)
    | .value (.ok r) =>
      match collectRecords rest with
      | .panicked => .panicked
      | .value (.error e) => .value (.error e)
      | .value (.ok rs) => .value (.ok (r :: rs))

/-- LinkedAxesDemo::refresh (src/main.rs lines 45-54): open the store, read
the key "aranet4", convert every row, and only then assign the whole list;
the question-mark operator returns the error with the state untouched. -/
def LinkedAxesDemo.refresh (env : Env) (st : LinkedAxesDemo) :
    PanicOr (Except IOError Unit × LinkedAxesDemo) :=
  match env.openDb measurementsPath with
  | .error e => .value (.error e, st)
  | .ok db =>
    match collectRecords (db.get "aranet4") with
    | .panicked => .panicked
    | .value (.error e) => .value (.error e, st)
    | .value (.ok recs) => .value (.ok (), { st with records := recs })

/-- The tooltip closure (label_formatter) passed by each plot function:
its code shape is shared and it captures only a metric name and a unit
suffix, the two strings recorded here. -/
structure LabelFormatterSpec where
  metric_label : String
  unit_label : String
deriving DecidableEq, Repr

/-- The y-axis tick closure (y_axis_formatter) passed by each plot function:
shared code shape capturing only the unit suffix recorded here. -/
structure AxisFormatterSpec where
  unit_label : String
deriving DecidableEq, Repr

/-- The x-axis tick closure (x_axis_formatter): its body is the same
timestamp-display code in all five plot functions and captures nothing, so
it is represented by this single marker value. -/
inductive XAxisFormatterSpec where
  | timestampDisplay
deriving DecidableEq, Repr

/-- The arguments each plot function passes to plot_generic
(src/main.rs lines 73-83): title, line color, the three formatter closures
in represented form, the show_y_axis flag, and the field projection. -/
structure PlotArgs where
  title : String
  line_color : Color32
  label_formatter_spec : LabelFormatterSpec
  y_axis_formatter_spec : AxisFormatterSpec
  x_axis_formatter_spec : XAxisFormatterSpec
  show_y_axis : Bool
  extract : Record → ℚ

/-- The link group id computed in plot_generic line 84:
ui.id().with(PLOT_LINK_AXIS_NAME). -/
structure LinkId where
  ui_id : ℕ
  name : String
deriving DecidableEq, Repr

/-- The plot widget built by plot_generic (src/main.rs lines 86-107):
the builder calls recorded as data, and the data points of the single line. -/
structure PlotOutput where
  plot_name : String
  width : ℚ
  height : ℚ
  link_axis_group : LinkId
  link_axis : Vec2b
  show_axes : Vec2b
  link_cursor_group : LinkId
  link_cursor : Vec2b
  y_axis_min_width : ℚ
  points : List (ℚ × ℚ)
  fill : ℚ
  color : Color32
deriving DecidableEq, Repr

/-- LinkedAxesDemo::plot_generic (src/main.rs lines 73-144): builds one plot
from the argument bundle; the line data maps the in-memory records in order
to pairs of timestamp_millis and the projected field. -/
def LinkedAxesDemo.plot_generic (st : LinkedAxesDemo) (uiId : ℕ)
    (args : PlotArgs) : PlotOutput :=
  { plot_name := args.title
    width := PLOT_WIDTH
    height := PLOT_HEIGHT
    link_axis_group := ⟨uiId, PLOT_LINK_AXIS_NAME⟩
    link_axis := ⟨true, false⟩
    show_axes := ⟨args.show_y_axis, true⟩
    link_cursor_group := ⟨uiId, PLOT_LINK_AXIS_NAME⟩
    link_cursor := ⟨true, false⟩
    y_axis_min_width := 60
    points := st.records.map (fun r => (r.timestamp_millis, args.extract r))
    fill := -100
    color := args.line_color }

/-- Arguments of plot_temperature (src/main.rs lines 146-168). -/
def temperatureArgs : PlotArgs :=
  { title := "Temperature (°C)"
    line_color := .green
    label_formatter_spec := ⟨"temperature", "°C"⟩
    y_axis_formatter_spec := ⟨"°C"⟩
    x_axis_formatter_spec := .timestampDisplay
    show_y_axis := false
    extract := fun r => r.celsius }

/-- Arguments of plot_pressure (src/main.rs lines 170-192). -/
def pressureArgs : PlotArgs :=
  { title := "Pressure (hPa)"
    line_color := .blue
    label_formatter_spec := ⟨"pressure", " hPa"⟩
    y_axis_formatter_spec := ⟨" hPa"⟩
    x_axis_formatter_spec := .timestampDisplay
    show_y_axis := false
    extract := fun r => r.pressure }

/-- Arguments of plot_co2 (src/main.rs lines 194-216). -/
def co2Args : PlotArgs :=
  { title := "CO₂ (ppm)"
    line_color := .white
    label_formatter_spec := ⟨"CO₂", " ppm"⟩
    y_axis_formatter_spec := ⟨" ppm"⟩
    x_axis_formatter_spec := .timestampDisplay
    show_y_axis := false
    extract := fun r => (r.co2_level : ℚ) }

/-- Arguments of plot_humidity (src/main.rs lines 218-240). -/
def humidityArgs : PlotArgs :=
  { title := "Humidity (%)"
    line_color := .cyan
    label_formatter_spec := ⟨"Humidity", " %"⟩
    y_axis_formatter_spec := ⟨" %"⟩
    x_axis_formatter_spec := .timestampDisplay
    show_y_axis := false
    extract := fun r => (r.humidity : ℚ) }

/-- Arguments of plot_battery (src/main.rs lines 242-264); note the
show_y_axis flag is true here, unlike the other four. -/
def batteryArgs : PlotArgs :=
  { title := "Battery (%)"
    line_color := .yellow
    label_formatter_spec := ⟨"Battery", " %"⟩
    y_axis_formatter_spec := ⟨" %"⟩
    x_axis_formatter_spec := .timestampDisplay
    show_y_axis := true
    extract := fun r => (r.battery : ℚ) }

/-- LinkedAxesDemo::plot_temperature: plot_generic at temperatureArgs. -/
def LinkedAxesDemo.plot_temperature (st : LinkedAxesDemo) (uiId : ℕ) : PlotOutput :=
  st.plot_generic uiId temperatureArgs

/-- LinkedAxesDemo::plot_pressure: plot_generic at pressureArgs. -/
def LinkedAxesDemo.plot_pressure (st : LinkedAxesDemo) (uiId : ℕ) : PlotOutput :=
  st.plot_generic uiId pressureArgs

/-- LinkedAxesDemo::plot_co2: plot_generic at co2Args. -/
def LinkedAxesDemo.plot_co2 (st : LinkedAxesDemo) (uiId : ℕ) : PlotOutput :=
  st.plot_generic uiId co2Args

/-- LinkedAxesDemo::plot_humidity: plot_generic at humidityArgs. -/
def LinkedAxesDemo.plot_humidity (st : LinkedAxesDemo) (uiId : ℕ) : PlotOutput :=
  st.plot_generic uiId humidityArgs

/-- LinkedAxesDemo::plot_battery: plot_generic at batteryArgs. -/
def LinkedAxesDemo.plot_battery (st : LinkedAxesDemo) (uiId : ℕ) : PlotOutput :=
  st.plot_generic uiId batteryArgs

/-- A widget emitted into the frame. -/
inductive Widget where
  | heading (text : String)
  | button (text : String)
  | plot (out : PlotOutput)
  | space (amount : ℚ)
deriving DecidableEq, Repr

/-- LinkedAxesDemo::ui (src/main.rs lines 56-71): emits the five plots with
spacing between them, and returns the state after the call; the method
takes the state by mutable reference but the plot functions borrow it
immutably, so the state comes back unchanged. -/
def LinkedAxesDemo.ui (st : LinkedAxesDemo) (uiId : ℕ) :
    List Widget × LinkedAxesDemo :=
  ([.plot (st.plot_temperature uiId), .space PLOT_SPACE,
    .plot (st.plot_pressure uiId), .space PLOT_SPACE,
    .plot (st.plot_co2 uiId), .space PLOT_SPACE,
    .plot (st.plot_humidity uiId), .space PLOT_SPACE,
    .plot (st.plot_battery uiId)], st)

/-- The plots among a widget list, in emission order. -/
def plotsOf (ws : List Widget) : List PlotOutput :=
  ws.filterMap (fun w => match w with | .plot p => some p | _ => none)

/-- Rust unwrap on the io::Result returned by refresh (main lines 26 and
32): an Err value panics, Ok keeps the updated state. -/
def unwrapRefresh (x : PanicOr (Except IOError Unit × LinkedAxesDemo)) :
    PanicOr LinkedAxesDemo :=
  match x with
  | .panicked => .panicked
  | .value (.error _, _) => .panicked
  | .value (.ok _, st) => .value st

/-- The startup sequence of main (src/main.rs lines 25-26): a default state
refreshed once, with the result unwrapped. -/
def startup (env : Env) : PanicOr LinkedAxesDemo :=
  unwrapRefresh (LinkedAxesDemo.default.refresh env)

/-- One frame of the closure passed to run_simple_native (src/main.rs lines
28-36): heading, Refresh button (refreshing and unwrapping when clicked),
then LinkedAxesDemo::ui. -/
def frameStep (env : Env) (clicked : Bool) (uiId : ℕ)
    (st : LinkedAxesDemo) : PanicOr (List Widget × LinkedAxesDemo) :=
  if clicked then
    match unwrapRefresh (st.refresh env) with
    | .panicked => .panicked
    | .value st2 =>
      .value (Widget.heading "Aranet4" :: Widget.button "Refresh"
        :: (st2.ui uiId).1, (st2.ui uiId).2)
  else
    .value (Widget.heading "Aranet4" :: Widget.button "Refresh"
      :: (st.ui uiId).1, (st.ui uiId).2)

/-- Modelled from the words of the spec, for the refinement claim: two
argument bundles differ only in line color, label or title text, and the
projected Record field, when every remaining component of the bundle — the
show_y_axis flag and the x-axis formatter — is equal between them. -/
def differOnlyInColorTextProjection (a b : PlotArgs) : Prop :=
  a.show_y_axis = b.show_y_axis ∧
  a.x_axis_formatter_spec = b.x_axis_formatter_spec

instance (a b : PlotArgs) : Decidable (differOnlyInColorTextProjection a b) :=
  inferInstanceAs (Decidable (_ ∧ _))

/-- Record broken into its tuple of components. -/
def Record.toTuple (r : Record) : ℕ × ℚ × ℚ × ℕ × ℕ × ℕ :=
  (r.timestamp_nanos, r.celsius, r.pressure, r.co2_level, r.humidity, r.battery)

/-- Record rebuilt from a tuple of components. -/
def Record.ofTuple (t : ℕ × ℚ × ℚ × ℕ × ℕ × ℕ) : Record :=
  ⟨t.1, t.2.1, t.2.2.1, t.2.2.2.1, t.2.2.2.2.1, t.2.2.2.2.2⟩

/-- A concrete well-formed stored row, used by the witnesses. -/
def vSample : SonRecord :=
  ⟨100, [.f32val 20, .f32val 1000, .u32val 400, .u32val 50, .u32val 90]⟩

/-- The Record vSample converts to. -/
def recSample : Record := ⟨100, 20, 1000, 400, 50, 90⟩

/-- A concrete database whose every key holds the single row vSample. -/
def dbSample : Database := ⟨fun _ => [vSample]⟩

/-- A concrete environment where opening the store succeeds with dbSample. -/
def envOkSample : Env := ⟨fun _ => .ok dbSample⟩

/-- A concrete environment where opening the store fails. -/
def envErrSample : Env := ⟨fun _ => .error ⟨"io error"⟩⟩

/-- C1: on every frame, ui renders exactly five line charts, one per metric,
in the fixed order temperature, pressure, CO₂, humidity, battery, and no
others. -/
theorem c1_ui_renders_exactly_five_plots (st : LinkedAxesDemo) (uiId : ℕ) :
    plotsOf (st.ui uiId).1 =
      [st.plot_temperature uiId, st.plot_pressure uiId, st.plot_co2 uiId,
        st.plot_humidity uiId, st.plot_battery uiId] ∧
    (plotsOf (st.ui uiId).1).map PlotOutput.plot_name =
      ["Temperature (°C)", "Pressure (hPa)", "CO₂ (ppm)", "Humidity (%)",
        "Battery (%)"] := by
  exact ⟨rfl, rfl⟩

/-- C2 counterexample: the claim that the argument bundles of the five plot
functions differ only in color, label text and projected field is false;
the bundles of plot_temperature and plot_battery also differ in the
show_y_axis flag. -/
theorem c2_show_y_axis_counterexample :
    ¬ differOnlyInColorTextProjection temperatureArgs batteryArgs := by
  decide

/-- C2 amended: each of the five plot functions equals plot_generic applied
to its argument bundle; the bundles share the x-axis formatter, and beyond
color, label text and projected field they differ only in the show_y_axis
flag, which is false for the first four metrics and true for battery. -/
theorem c2_plot_functions_refine_generic (st : LinkedAxesDemo) (uiId : ℕ) :
    (st.plot_temperature uiId = st.plot_generic uiId temperatureArgs ∧
      st.plot_pressure uiId = st.plot_generic uiId pressureArgs ∧
      st.plot_co2 uiId = st.plot_generic uiId co2Args ∧
      st.plot_humidity uiId = st.plot_generic uiId humidityArgs ∧
      st.plot_battery uiId = st.plot_generic uiId batteryArgs) ∧
    (temperatureArgs.x_axis_formatter_spec = batteryArgs.x_axis_formatter_spec ∧
      pressureArgs.x_axis_formatter_spec = batteryArgs.x_axis_formatter_spec ∧
      co2Args.x_axis_formatter_spec = batteryArgs.x_axis_formatter_spec ∧
      humidityArgs.x_axis_formatter_spec = batteryArgs.x_axis_formatter_spec) ∧
    (temperatureArgs.show_y_axis = false ∧ pressureArgs.show_y_axis = false ∧
      co2Args.show_y_axis = false ∧ humidityArgs.show_y_axis = false ∧
      batteryArgs.show_y_axis = true) := by
  exact ⟨⟨rfl, rfl, rfl, rfl, rfl⟩, ⟨rfl, rfl, rfl, rfl⟩,
    rfl, rfl, rfl, rfl, rfl⟩

/-- C3: converting a stored row never returns Err; it either returns Ok with
the five fields read from positions 0 to 4 and the timestamp of the row, or
panics on a malformed field. -/
theorem c3_tryFrom_never_errs (v : SonRecord) :
    (∀ e, Record.tryFrom v ≠ PanicOr.value (.error e)) ∧
    (∀ r, Record.tryFrom v = PanicOr.value (.ok r) →
      r.timestamp_nanos = v.timestamp_nanos ∧
      v.get_checked_f32 0 = some r.celsius ∧
      v.get_checked_f32 1 = some r.pressure ∧
      v.get_checked_u32 2 = some r.co2_level ∧
      v.get_checked_u32 3 = some r.humidity ∧
      v.get_checked_u32 4 = some r.battery) ∧
    ((∃ r, Record.tryFrom v = PanicOr.value (.ok r)) ∨
      Record.tryFrom v = PanicOr.panicked) := by
  cases h0 : v.get_checked_f32 0 <;>
    cases h1 : v.get_checked_f32 1 <;>
      cases h2 : v.get_checked_u32 2 <;>
        cases h3 : v.get_checked_u32 3 <;>
          cases h4 : v.get_checked_u32 4 <;>
            simp [Record.tryFrom, h0, h1, h2, h3, h4]

/-- C3 witness: the sample row converts to Ok recSample, whose fields are
read from positions 0 to 4 and the timestamp of the row. -/
theorem c3_tryFrom_never_errs_witness :
    recSample.timestamp_nanos = vSample.timestamp_nanos ∧
    vSample.get_checked_f32 0 = some recSample.celsius ∧
    vSample.get_checked_f32 1 = some recSample.pressure ∧
    vSample.get_checked_u32 2 = some recSample.co2_level ∧
    vSample.get_checked_u32 3 = some recSample.humidity ∧
    vSample.get_checked_u32 4 = some recSample.battery :=
  (c3_tryFrom_never_errs vSample).2.1 recSample rfl

/-- C4: every plot built by plot_generic links pan and zoom and cursor on
the x axis only, through one group id shared by the five plots of a frame. -/
theorem c4_linked_on_x_axis_only (st : LinkedAxesDemo) (uiId : ℕ) :
    (∀ args : PlotArgs,
      (st.plot_generic uiId args).link_axis = ⟨true, false⟩ ∧
      (st.plot_generic uiId args).link_cursor = ⟨true, false⟩ ∧
      (st.plot_generic uiId args).link_axis_group =
        ⟨uiId, PLOT_LINK_AXIS_NAME⟩ ∧
      (st.plot_generic uiId args).link_cursor_group =
        ⟨uiId, PLOT_LINK_AXIS_NAME⟩) ∧
    (plotsOf (st.ui uiId).1).map PlotOutput.link_axis_group =
      List.replicate 5 ⟨uiId, PLOT_LINK_AXIS_NAME⟩ := by
  exact ⟨fun args => ⟨rfl, rfl, rfl, rfl⟩, rfl⟩

/-- C5: the plotted point list is exactly the record list mapped in order to
pairs of the timestamp in nanoseconds divided by one million and the
projected field, so its length equals the number of records. -/
theorem c5_points_are_elementwise_map (st : LinkedAxesDemo) (uiId : ℕ)
    (args : PlotArgs) :
    (st.plot_generic uiId args).points =
      st.records.map
        (fun r => ((r.timestamp_nanos : ℚ) / 1000000, args.extract r)) ∧
    (st.plot_generic uiId args).points.length = st.records.length := by
  constructor
  · rfl
  · simp [LinkedAxesDemo.plot_generic]

/-- C6: rendering never mutates the record list; ui returns the state
unchanged, and a frame without a click only emits widgets and keeps the
state. -/
theorem c6_render_preserves_records (env : Env) (st : LinkedAxesDemo)
    (uiId : ℕ) :
    (st.ui uiId).2 = st ∧
    frameStep env false uiId st =
      PanicOr.value
        (Widget.heading "Aranet4" :: Widget.button "Refresh"
          :: (st.ui uiId).1, st) := by
  exact ⟨rfl, rfl⟩

/-- C7: refresh opens the store, reads the key aranet4, converts rows, and
replaces the whole list on success; an error from opening or converting is
returned immediately as Err with no retry. -/
theorem c7_refresh_propagates_errors (env : Env) (st : LinkedAxesDemo) :
    (∀ e, env.openDb measurementsPath = .error e →
      st.refresh env = PanicOr.value (.error e, st)) ∧
    (∀ db, env.openDb measurementsPath = .ok db →
      (∀ e, collectRecords (db.get "aranet4") = PanicOr.value (.error e) →
        st.refresh env = PanicOr.value (.error e, st)) ∧
      (∀ recs, collectRecords (db.get "aranet4") = PanicOr.value (.ok recs) →
        st.refresh env = PanicOr.value (.ok (), ⟨recs⟩))) := by
  refine ⟨fun e he => ?_, fun db hdb => ⟨fun e he => ?_, fun recs hr => ?_⟩⟩
  · simp only [LinkedAxesDemo.refresh, he]
  · simp only [LinkedAxesDemo.refresh, hdb, he]
  · simp only [LinkedAxesDemo.refresh, hdb, hr]

/-- C7 witness: against the concrete environment envOkSample, refresh on the
default state succeeds and replaces the list with the converted sample row. -/
theorem c7_refresh_propagates_errors_witness :
    LinkedAxesDemo.default.refresh envOkSample =
      PanicOr.value (.ok (), ⟨[recSample]⟩) :=
  ((c7_refresh_propagates_errors envOkSample LinkedAxesDemo.default).2
    dbSample rfl).2 [recSample] rfl

/-- C8: a Record has exactly six components, the timestamp in nanoseconds
and the five sensor fields: splitting into the six-tuple and rebuilding are
mutually inverse. -/
theorem c8_record_is_exactly_six_fields :
    (∀ r : Record, Record.ofTuple r.toTuple = r) ∧
    (∀ t : ℕ × ℚ × ℚ × ℕ × ℕ × ℕ, (Record.ofTuple t).toTuple = t) := by
  exact ⟨fun r => rfl, fun t => rfl⟩

/-- C9: refresh is atomic on failure; whenever it returns Err, the records
list it hands back is exactly the one it started with. -/
theorem c9_refresh_atomic_on_error (env : Env) (st st2 : LinkedAxesDemo)
    (e : IOError) (h : st.refresh env = PanicOr.value (.error e, st2)) :
    st2.records = st.records := by
  cases hdb : env.openDb measurementsPath with
  | error e0 =>
    have heq : st.refresh env = PanicOr.value (.error e0, st) := by
      simp only [LinkedAxesDemo.refresh, hdb]
    rw [h] at heq
    injection heq with h1
    exact congrArg LinkedAxesDemo.records (congrArg Prod.snd h1)
  | ok db =>
    cases hcr : collectRecords (db.get "aranet4") with
    | panicked =>
      have heq : st.refresh env = PanicOr.panicked := by
        simp only [LinkedAxesDemo.refresh, hdb, hcr]
      rw [h] at heq
      exact absurd heq (by simp)
    | value x =>
      cases x with
      | error e0 =>
        have heq : st.refresh env = PanicOr.value (.error e0, st) := by
          simp only [LinkedAxesDemo.refresh, hdb, hcr]
        rw [h] at heq
        injection heq with h1
        exact congrArg LinkedAxesDemo.records (congrArg Prod.snd h1)
      | ok recs =>
        have heq : st.refresh env = PanicOr.value (.ok (), ⟨recs⟩) := by
          simp only [LinkedAxesDemo.refresh, hdb, hcr]
        rw [h] at heq
        injection heq with h1
        exact absurd (congrArg Prod.fst h1) (by simp)

/-- C9 witness: with the failing environment envErrSample, refresh on a
nonempty state returns Err and the state it hands back has the same
records. -/
theorem c9_refresh_atomic_on_error_witness :
    LinkedAxesDemo.refresh envErrSample ⟨[recSample]⟩ =
      PanicOr.value (.error ⟨"io error"⟩, ⟨[recSample]⟩) ∧
    (⟨[recSample]⟩ : LinkedAxesDemo).records =
      (⟨[recSample]⟩ : LinkedAxesDemo).records :=
  ⟨rfl, c9_refresh_atomic_on_error envErrSample ⟨[recSample]⟩ ⟨[recSample]⟩
    ⟨"io error"⟩ rfl⟩

/-- C10: both the startup refresh and the refresh behind the button unwrap
the result, so any refresh returning Err makes the frame panic, and on the
default starting state it makes startup panic. -/
theorem c10_refresh_error_panics (env : Env) (uiId : ℕ)
    (st st2 : LinkedAxesDemo) (e : IOError)
    (h : st.refresh env = PanicOr.value (.error e, st2)) :
    frameStep env true uiId st = PanicOr.panicked ∧
    (st = LinkedAxesDemo.default → startup env = PanicOr.panicked) := by
  constructor
  · simp [frameStep, h, unwrapRefresh]
  · intro hd
    subst hd
    simp [startup, h, unwrapRefresh]

/-- C10 witness: with the concrete failing environment envErrSample, a
clicked frame from the default state panics. -/
theorem c10_refresh_error_panics_witness :
    frameStep envErrSample true 0 LinkedAxesDemo.default =
      PanicOr.panicked :=
  (c10_refresh_error_panics envErrSample 0 LinkedAxesDemo.default
    LinkedAxesDemo.default ⟨"io error"⟩ rfl).1

end Aranet
